import Mathlib

/-!
Shallow embedding of the SMC_Extinction repository (src/model.py): a
parametric interstellar extinction curve evaluator.  Input grids carry an
astropy-style unit tag; `validate_input_units` normalizes to inverse
micrometers, `a` and `b` are the three-region piecewise laws, `fa` and `fb`
the UV bump corrections, and `evaluate` combines them as a(x) + b(x)/rv.
Real numbers stand for the floats of the source.
-/

namespace SMCExtinction

/-- Physical dimension tag of a unit, as astropy get_physical_type reports it:
the source distinguishes length, wavenumber, and everything else. -/
inductive Dimension
  | length
  | wavenumber
  | other
deriving DecidableEq

/-- A unit: its physical dimension together with the positive conversion
factor to the canonical unit (micrometers for length, inverse micrometers
for wavenumber).  Conversion x.to(micron) multiplies by this factor. -/
structure PhysUnit where
  dim : Dimension
  toCanonical : ℝ

/-- An astropy Quantity: a sequence of values carrying one unit. -/
structure Quantity where
  values : List ℝ
  unit : PhysUnit

/-- The grid argument of the model: either a Quantity or a bare (untagged)
array of reals, which isinstance(x, u.Quantity) rejects. -/
inductive GridInput
  | q : Quantity → GridInput
  | raw : List ℝ → GridInput

/-- The two distinct ValueError messages of validate_input_units:
"Input unit not specified." and "Input unit must be of type length or
wavenumber.". -/
inductive UnitError
  | MissingUnit
  | UnsupportedPhysicalType
deriving DecidableEq

noncomputable section

/-- validate_input_units (src/model.py, lines 24-46): a length quantity is
converted to micrometers and inverted elementwise; a wavenumber quantity is
converted to inverse micrometers; any other dimension raises, and a
non-Quantity input raises. -/
def validate_input_units : GridInput → Except UnitError (List ℝ)
  | GridInput.q qty =>
      match qty.unit.dim with
      | Dimension.length =>
          Except.ok (qty.values.map (fun v => 1 / (v * qty.unit.toCanonical)))
      | Dimension.wavenumber =>
          Except.ok (qty.values.map (fun v => v * qty.unit.toCanonical))
      | Dimension.other => Except.error UnitError.UnsupportedPhysicalType
  | GridInput.raw _ => Except.error UnitError.MissingUnit

/-- fa (src/model.py, lines 52-58): UV correction term for A(x) at x >= 5.9,
zero below the threshold. -/
def fa (x : ℝ) : ℝ :=
  if 5.9 ≤ x then 1.0004e-3 * (x - 5.9) ^ 2 + 1e-4 * (x - 5.9) ^ 3 else 0.0

/-- fb (src/model.py, lines 60-66): UV correction term for B(x) at x >= 5.9,
zero below the threshold. -/
def fb (x : ℝ) : ℝ :=
  if 5.9 ≤ x then 2.8548e-1 * (x - 5.9) ^ 2 + 1e-4 * (x - 5.9) ^ 3 else 0.0

/-- Region 1 (infrared) formula of a: 0.574 * x ** 1.61. -/
def irA (x : ℝ) : ℝ := 0.574 * x ^ (1.61 : ℝ)

/-- Region 2 (optical/near-IR) formula of a: degree-7 polynomial in
y = x - 1.82. -/
def optA (x : ℝ) : ℝ :=
  1 + 0.17699 * (x - 1.82) - 0.50447 * (x - 1.82) ^ 2 - 0.02427 * (x - 1.82) ^ 3
    + 0.72085 * (x - 1.82) ^ 4 + 0.01979 * (x - 1.82) ^ 5
    - 0.77530 * (x - 1.82) ^ 6 + 0.32999 * (x - 1.82) ^ 7

/-- Region 3 (ultraviolet) formula of a: linear term, Lorentzian-like term
and bump correction. -/
def uvA (x : ℝ) : ℝ :=
  -1.10895637 + 0.53314169 * x + 0.017348 / ((x - 4.6) ^ 2 + 0.2444) + fa x

/-- a (src/model.py, lines 71-97): the output array starts as zeros and each
of the three boundary masks writes its formula on its elements; the masks
x <= 1.1, 1.1 < x <= 3.2429, x > 3.2429 are pairwise disjoint, so the
elementwise value is this conditional. -/
def a (x : ℝ) : ℝ :=
  if x ≤ 1.1 then irA x
  else if 1.1 < x ∧ x ≤ 3.2429 then optA x
  else if 3.2429 < x then uvA x
  else 0

/-- Region 1 (infrared) formula of b: -0.527 * x ** 1.61. -/
def irB (x : ℝ) : ℝ := -0.527 * x ^ (1.61 : ℝ)

/-- Region 2 (optical/near-IR) formula of b: degree-7 polynomial in
y = x - 1.82 with zero constant term. -/
def optB (x : ℝ) : ℝ :=
  1.41338 * (x - 1.82) + 2.28305 * (x - 1.82) ^ 2 + 1.07233 * (x - 1.82) ^ 3
    - 5.38434 * (x - 1.82) ^ 4 - 0.62251 * (x - 1.82) ^ 5
    + 5.30260 * (x - 1.82) ^ 6 - 2.09002 * (x - 1.82) ^ 7

/-- Region 3 (ultraviolet) formula of b. -/
def uvB (x : ℝ) : ℝ :=
  1.01154931 + 0.76809458 * x + 0.047807 / ((x - 4.6) ^ 2 + 0.2444) + fb x

/-- b (src/model.py, lines 99-124): same mask structure as a, with the b
coefficients. -/
def b (x : ℝ) : ℝ :=
  if x ≤ 1.1 then irB x
  else if 1.1 < x ∧ x ≤ 3.2429 then optB x
  else if 3.2429 < x then uvB x
  else 0

/-- The ExtinctionCurve object: __init__ stores the grid and rv unchanged. -/
structure ExtinctionCurve where
  x : GridInput
  rv : ℝ

/-- ExtinctionCurve(x, rv=2.74) (src/model.py, lines 17-19): plain field
assignment, no validation of any kind. -/
def init (x : GridInput) (rv : ℝ := 2.74) : ExtinctionCurve :=
  { x := x, rv := rv }

/-- evaluate (src/model.py, lines 129-149): resolve units, then return
a(x) + b(x)/rv elementwise.  The division by rv is unguarded in the
source; the only raises reachable from evaluate are the unit errors. -/
def ExtinctionCurve.evaluate (c : ExtinctionCurve) : Except UnitError (List ℝ) :=
  match validate_input_units c.x with
  | Except.ok xs => Except.ok (xs.map (fun v => a v + b v / c.rv))
  | Except.error e => Except.error e

/-- State-passing version of validate_input_units: the source reads self.x
and writes nothing back (the assignments to self.x are commented out), so
the returned state is the input state. -/
def validateS (c : ExtinctionCurve) : Except UnitError (List ℝ) × ExtinctionCurve :=
  (validate_input_units c.x, c)

/-- State-passing version of evaluate, threading the object state through
the call to validate_input_units. -/
def evaluateS (c : ExtinctionCurve) : Except UnitError (List ℝ) × ExtinctionCurve :=
  match validateS c with
  | (Except.ok xs, c1) => (Except.ok (xs.map (fun v => a v + b v / c1.rv)), c1)
  | (Except.error e, c1) => (Except.error e, c1)

/-- Whether an evaluation produced a result rather than raising. -/
def isOk : Except UnitError (List ℝ) → Bool
  | Except.ok _ => true
  | Except.error _ => false

end

/-- Claim C1: a and b are computed elementwise by the three-region piecewise
law: the three boundary masks are pairwise disjoint and exhaustive (every x
satisfies exactly one), on each region a and b equal the stated closed
forms, and the output arrays have one element per input element,
positionally aligned. -/
theorem C1_piecewise_law (x : ℝ) (xs : List ℝ) :
    ((x ≤ 1.1 ∧ ¬(1.1 < x ∧ x ≤ 3.2429) ∧ ¬(3.2429 < x))
      ∨ (¬(x ≤ 1.1) ∧ (1.1 < x ∧ x ≤ 3.2429) ∧ ¬(3.2429 < x))
      ∨ (¬(x ≤ 1.1) ∧ ¬(1.1 < x ∧ x ≤ 3.2429) ∧ 3.2429 < x))
    ∧ (x ≤ 1.1 → a x = 0.574 * x ^ (1.61 : ℝ) ∧ b x = -0.527 * x ^ (1.61 : ℝ))
    ∧ (1.1 < x → x ≤ 3.2429 →
        a x = 1 + 0.17699 * (x - 1.82) - 0.50447 * (x - 1.82) ^ 2
            - 0.02427 * (x - 1.82) ^ 3 + 0.72085 * (x - 1.82) ^ 4
            + 0.01979 * (x - 1.82) ^ 5 - 0.77530 * (x - 1.82) ^ 6
            + 0.32999 * (x - 1.82) ^ 7
          ∧ b x = 1.41338 * (x - 1.82) + 2.28305 * (x - 1.82) ^ 2
            + 1.07233 * (x - 1.82) ^ 3 - 5.38434 * (x - 1.82) ^ 4
            - 0.62251 * (x - 1.82) ^ 5 + 5.30260 * (x - 1.82) ^ 6
            - 2.09002 * (x - 1.82) ^ 7)
    ∧ (3.2429 < x →
        a x = -1.10895637 + 0.53314169 * x
            + 0.017348 / ((x - 4.6) ^ 2 + 0.2444) + fa x
          ∧ b x = 1.01154931 + 0.76809458 * x
            + 0.047807 / ((x - 4.6) ^ 2 + 0.2444) + fb x)
    ∧ (xs.map a).length = xs.length ∧ (xs.map b).length = xs.length
    ∧ (∀ (i : ℕ) (h1 : i < xs.length) (h2 : i < (xs.map a).length),
        (xs.map a).get ⟨i, h2⟩ = a (xs.get ⟨i, h1⟩))
    ∧ (∀ (i : ℕ) (h1 : i < xs.length) (h2 : i < (xs.map b).length),
        (xs.map b).get ⟨i, h2⟩ = b (xs.get ⟨i, h1⟩)) := by
  refine ⟨?_, fun h => ?_, fun h1 h2 => ?_, fun h => ?_, xs.length_map a,
    xs.length_map b, fun i h1 h2 => ?_, fun i h1 h2 => ?_⟩
  · rcases le_or_lt x 1.1 with h | h
    · exact Or.inl ⟨h, fun hc => absurd h (not_le.mpr hc.1), fun hc => by linarith⟩
    · rcases le_or_lt x 3.2429 with h3 | h3
      · exact Or.inr (Or.inl ⟨not_le.mpr h, ⟨h, h3⟩, not_lt.mpr h3⟩)
      · exact Or.inr (Or.inr ⟨not_le.mpr h, fun hc => absurd h3 (not_lt.mpr hc.2),
          h3⟩)
  · simp [a, b, irA, irB, if_pos h]
  · rw [a, if_neg (not_le.mpr h1), if_pos ⟨h1, h2⟩, b, if_neg (not_le.mpr h1),
      if_pos ⟨h1, h2⟩]
    exact ⟨rfl, rfl⟩
  · have hn1 : ¬x ≤ 1.1 := by linarith
    have hn2 : ¬(1.1 < x ∧ x ≤ 3.2429) := fun hc => absurd h (not_lt.mpr hc.2)
    rw [a, if_neg hn1, if_neg hn2, if_pos h, b, if_neg hn1, if_neg hn2, if_pos h]
    exact ⟨rfl, rfl⟩
  · simp [List.get_eq_getElem, List.getElem_map]
  · simp [List.get_eq_getElem, List.getElem_map]

/-- Claim C1 witness: the piecewise law instantiated in each region, at
x = 1 (infrared), x = 2 (optical) and x = 4 (ultraviolet). -/
theorem C1_piecewise_law_witness :
    a 1 = 0.574 * (1 : ℝ) ^ (1.61 : ℝ)
      ∧ a 2 = 1 + 0.17699 * ((2 : ℝ) - 1.82) - 0.50447 * ((2 : ℝ) - 1.82) ^ 2
          - 0.02427 * ((2 : ℝ) - 1.82) ^ 3 + 0.72085 * ((2 : ℝ) - 1.82) ^ 4
          + 0.01979 * ((2 : ℝ) - 1.82) ^ 5 - 0.77530 * ((2 : ℝ) - 1.82) ^ 6
          + 0.32999 * ((2 : ℝ) - 1.82) ^ 7
      ∧ a 4 = -1.10895637 + 0.53314169 * (4 : ℝ)
          + 0.017348 / (((4 : ℝ) - 4.6) ^ 2 + 0.2444) + fa 4 :=
  ⟨((C1_piecewise_law 1 []).2.1 (by norm_num)).1,
    ((C1_piecewise_law 2 []).2.2.1 (by norm_num) (by norm_num)).1,
    ((C1_piecewise_law 4 []).2.2.2.1 (by norm_num)).1⟩

/-- Claim C8: fa and fb equal their quadratic-plus-cubic closed forms for
x at or above 5.9 and vanish below it; both vanish at 5.9 exactly; and on
the bump region both are non-negative and strictly increasing. -/
theorem C8_bump_corrections (x x1 x2 : ℝ) :
    (5.9 ≤ x → fa x = 1.0004e-3 * (x - 5.9) ^ 2 + 1e-4 * (x - 5.9) ^ 3
      ∧ fb x = 2.8548e-1 * (x - 5.9) ^ 2 + 1e-4 * (x - 5.9) ^ 3)
    ∧ (x < 5.9 → fa x = 0 ∧ fb x = 0)
    ∧ fa 5.9 = 0 ∧ fb 5.9 = 0
    ∧ (5.9 ≤ x → 0 ≤ fa x ∧ 0 ≤ fb x)
    ∧ (5.9 ≤ x1 → x1 < x2 → fa x1 < fa x2 ∧ fb x1 < fb x2) := by
  refine ⟨fun h => ?_, fun h => ?_, by norm_num [fa], by norm_num [fb],
    fun h => ?_, fun h1 h2 => ?_⟩
  · rw [fa, if_pos h, fb, if_pos h]; exact ⟨rfl, rfl⟩
  · rw [fa, if_neg (not_le.mpr h), fb, if_neg (not_le.mpr h)]; norm_num
  · have ht : (0 : ℝ) ≤ x - 5.9 := by linarith
    rw [fa, if_pos h, fb, if_pos h]
    exact ⟨add_nonneg (mul_nonneg (by norm_num) (pow_nonneg ht 2))
        (mul_nonneg (by norm_num) (pow_nonneg ht 3)),
      add_nonneg (mul_nonneg (by norm_num) (pow_nonneg ht 2))
        (mul_nonneg (by norm_num) (pow_nonneg ht 3))⟩
  · have h3 : 5.9 ≤ x2 := le_trans h1 h2.le
    have ht1 : (0 : ℝ) ≤ x1 - 5.9 := by linarith
    have ht2 : x1 - 5.9 < x2 - 5.9 := by linarith
    have hsq : (x1 - 5.9) ^ 2 < (x2 - 5.9) ^ 2 := by nlinarith
    have hcb : (x1 - 5.9) ^ 3 < (x2 - 5.9) ^ 3 := by nlinarith
    rw [fa, if_pos h1, fb, if_pos h1, fa, if_pos h3, fb, if_pos h3]
    constructor <;> nlinarith

/-- Claim C8 witness: the bump corrections at x = 6 are non-negative and
strictly below their values at x = 7. -/
theorem C8_bump_corrections_witness :
    (0 : ℝ) ≤ fa 6 ∧ fa 6 < fa 7 ∧ fb 6 < fb 7 :=
  ⟨((C8_bump_corrections 6 6 7).2.2.2.2.1 (by norm_num)).1,
    ((C8_bump_corrections 6 6 7).2.2.2.2.2 (by norm_num) (by norm_num)).1,
    ((C8_bump_corrections 6 6 7).2.2.2.2.2 (by norm_num) (by norm_num)).2⟩

/-- Raising 1.1 to the real power 1.61 and then to the natural power 100 is
raising 1.1 to the natural power 161. -/
lemma rpow_161_pow_100 : ((1.1 : ℝ) ^ (1.61 : ℝ)) ^ (100 : ℕ) = (1.1 : ℝ) ^ (161 : ℕ) := by
  have h0 : (0 : ℝ) ≤ 1.1 := by norm_num
  rw [← Real.rpow_natCast ((1.1 : ℝ) ^ (1.61 : ℝ)) 100, ← Real.rpow_mul h0]
  rw [show (1.61 : ℝ) * (100 : ℕ) = ((161 : ℕ) : ℝ) by norm_num]
  rw [Real.rpow_natCast]

/-- Rational lower bound on 1.1 to the power 1.61. -/
lemma rpow_1_1_1_61_low : (116584 / 100000 : ℝ) ≤ (1.1 : ℝ) ^ (1.61 : ℝ) := by
  apply le_of_pow_le_pow_left₀ (n := 100) (by norm_num)
    (Real.rpow_nonneg (by norm_num) _)
  rw [rpow_161_pow_100]
  norm_num

/-- Rational upper bound on 1.1 to the power 1.61. -/
lemma rpow_1_1_1_61_up : (1.1 : ℝ) ^ (1.61 : ℝ) ≤ 116586 / 100000 := by
  apply le_of_pow_le_pow_left₀ (n := 100) (by norm_num : (100 : ℕ) ≠ 0)
    (by norm_num : (0 : ℝ) ≤ 116586 / 100000)
  rw [rpow_161_pow_100]
  norm_num

/-- The bump corrections vanish at the optical/UV boundary point. -/
lemma fa_fb_at_boundary : fa 3.2429 = 0 ∧ fb 3.2429 = 0 := by
  rw [fa, if_neg (by norm_num), fb, if_neg (by norm_num)]
  norm_num

/-- Claim C4 counterexample: at the optical/UV boundary x = 3.2429 the two
formulas do not agree within any small tolerance: for a they differ by more
than 1/20 and for b by more than 1/10 (numerically, by about 0.065 and
0.178), so a and b are not continuous there. -/
theorem C4_counterexample :
    1 / 20 < |optA 3.2429 - uvA 3.2429| ∧ 1 / 10 < |optB 3.2429 - uvB 3.2429| := by
  have hA : (1 : ℝ) / 20 < optA 3.2429 - uvA 3.2429 := by
    rw [optA, uvA, fa_fb_at_boundary.1]
    norm_num
  have hB : (1 : ℝ) / 10 < uvB 3.2429 - optB 3.2429 := by
    rw [optB, uvB, fa_fb_at_boundary.2]
    norm_num
  constructor
  · exact lt_of_lt_of_le hA (le_abs_self _)
  · rw [abs_sub_comm]
    exact lt_of_lt_of_le hB (le_abs_self _)

/-- Claim C4 amended: a and b are continuous at x = 1.1 to within the small
tolerance 0.002 (the infrared and optical formulas agree there to about
3e-4 and 1.9e-3), but at the optical/UV boundary x = 3.2429 the adjacent
formulas disagree by more than 1/20 for a and more than 1/10 for b: only the
x = 1.1 boundary is continuous. -/
theorem C4_boundary_continuity_amended :
    |irA 1.1 - optA 1.1| < 2e-3 ∧ |irB 1.1 - optB 1.1| < 2e-3
      ∧ 1 / 20 < |optA 3.2429 - uvA 3.2429|
      ∧ 1 / 10 < |optB 3.2429 - uvB 3.2429| := by
  have hlow := rpow_1_1_1_61_low
  have hup := rpow_1_1_1_61_up
  refine ⟨?_, ?_, ?_, ?_⟩
  · rw [abs_lt, irA, optA]
    constructor <;> nlinarith [hlow, hup]
  · rw [abs_lt, irB, optB]
    constructor <;> nlinarith [hlow, hup]
  · have hA : (1 : ℝ) / 20 < optA 3.2429 - uvA 3.2429 := by
      rw [optA, uvA, fa_fb_at_boundary.1]
      norm_num
    exact lt_of_lt_of_le hA (le_abs_self _)
  · have hB : (1 : ℝ) / 10 < uvB 3.2429 - optB 3.2429 := by
      rw [optB, uvB, fa_fb_at_boundary.2]
      norm_num
    rw [abs_sub_comm]
    exact lt_of_lt_of_le hB (le_abs_self _)

/-- Claim C2: for the single-sample grid [1.0] in inverse micrometers and
rv = 3.1, evaluate returns the one-element sequence [0.574 + (-0.527)/3.1],
since a(1.0) = 0.574 and b(1.0) = -0.527 (infrared region). -/
theorem C2_concrete_scenario :
    (init (GridInput.q ⟨[1], ⟨Dimension.wavenumber, 1⟩⟩) 3.1).evaluate
      = Except.ok [0.574 + (-0.527) / 3.1] := by
  norm_num [init, ExtinctionCurve.evaluate, validate_input_units, a, b, irA, irB,
    Real.one_rpow]

/-- Claim C3 counterexample: with rv = 0 and a valid one-element wavenumber
grid, evaluate raises nothing: it returns a result, so it does not fail with
a DivisionByZero error before producing a result. -/
theorem C3_counterexample :
    isOk (init (GridInput.q ⟨[1], ⟨Dimension.wavenumber, 1⟩⟩) 0).evaluate = true := by
  norm_num [init, ExtinctionCurve.evaluate, validate_input_units, isOk]

/-- Claim C3 amended: evaluate with rv = 0 raises no error beyond unit
validation: for every grid and every rv (zero included), evaluate produces a
result exactly when unit validation does; the division by rv is unguarded. -/
theorem C3_no_zero_division_guard (g : GridInput) (rv : ℝ) :
    isOk (init g rv).evaluate = isOk (validate_input_units g) := by
  cases h : validate_input_units g <;>
    simp [init, ExtinctionCurve.evaluate, isOk, h]

/-- Claim C6: evaluate on a grid with no physical-dimension tag (a bare
array, not a Quantity) raises the missing-unit error and returns no
result. -/
theorem C6_missing_unit (xs : List ℝ) (rv : ℝ) :
    (init (GridInput.raw xs) rv).evaluate = Except.error UnitError.MissingUnit := rfl

/-- Claim C7: evaluate on a grid whose dimension tag is present but neither
length nor wavenumber raises the unsupported-physical-type error and returns
no result. -/
theorem C7_unsupported_dimension (vals : List ℝ) (sc rv : ℝ) :
    (init (GridInput.q ⟨vals, ⟨Dimension.other, sc⟩⟩) rv).evaluate
      = Except.error UnitError.UnsupportedPhysicalType := rfl

/-- Claim C9: evaluate leaves the stored grid and rv unchanged (the state
after the call is the starting state), two successive calls return equal
results, and the state-passing run agrees with the pure evaluate. -/
theorem C9_evaluate_pure_idempotent (c : ExtinctionCurve) :
    (evaluateS c).2 = c
      ∧ (evaluateS ((evaluateS c).2)).1 = (evaluateS c).1
      ∧ (evaluateS c).1 = c.evaluate := by
  cases h : validate_input_units c.x <;>
    simp [evaluateS, validateS, ExtinctionCurve.evaluate, h]

/-- Claim C10: construction stores the grid and rv unchanged for every
input, with no validation (rv = 0, untagged grids and unsupported dimensions
all construct); a unit error surfaces only when evaluate is called. -/
theorem C10_no_construction_validation (g : GridInput) (rv : ℝ) (e : UnitError) :
    (init g rv).x = g ∧ (init g rv).rv = rv
      ∧ (validate_input_units g = Except.error e →
          (init g rv).evaluate = Except.error e) := by
  refine ⟨rfl, rfl, fun h => ?_⟩
  simp [init, ExtinctionCurve.evaluate, h]

/-- Claim C10 witness: an untagged grid and rv = 0 still construct, and the
unit error appears only at evaluate. -/
theorem C10_no_construction_validation_witness :
    (init (GridInput.raw [1, 2]) 0).evaluate = Except.error UnitError.MissingUnit :=
  (C10_no_construction_validation (GridInput.raw [1, 2]) 0 UnitError.MissingUnit).2.2 rfl

/-- Claim C5: unit resolution maps a length-dimensioned grid to the
elementwise reciprocal of its value in micrometers and a wavenumber grid
directly to inverse micrometers; whenever the two normalized grids coincide
elementwise, evaluate produces identical results. -/
theorem C5_unit_equivalence (v w : List ℝ) (s t rv : ℝ)
    (h : w.map (fun wi => wi * t) = v.map (fun vi => 1 / (vi * s))) :
    validate_input_units (GridInput.q ⟨v, ⟨Dimension.length, s⟩⟩)
        = Except.ok (v.map (fun vi => 1 / (vi * s)))
      ∧ validate_input_units (GridInput.q ⟨w, ⟨Dimension.wavenumber, t⟩⟩)
        = Except.ok (w.map (fun wi => wi * t))
      ∧ (init (GridInput.q ⟨v, ⟨Dimension.length, s⟩⟩) rv).evaluate
        = (init (GridInput.q ⟨w, ⟨Dimension.wavenumber, t⟩⟩) rv).evaluate := by
  refine ⟨rfl, rfl, ?_⟩
  simp [init, ExtinctionCurve.evaluate, validate_input_units, h]

/-- Claim C5 witness: the grid [2] micrometers and its reciprocal grid [1/2]
inverse micrometers evaluate identically. -/
theorem C5_unit_equivalence_witness :
    (init (GridInput.q ⟨[2], ⟨Dimension.length, 1⟩⟩) 3.1).evaluate
      = (init (GridInput.q ⟨[1 / 2], ⟨Dimension.wavenumber, 1⟩⟩) 3.1).evaluate :=
  (C5_unit_equivalence [2] [1 / 2] 1 1 3.1 (by norm_num)).2.2

end SMCExtinction
